import Mathlib

/-!
Shallow embedding of the pacemaker fencing client library
(`lib/fencing/st_client.c`): the retry policy, asynchronous result
classification, call-id allocation, synchronous reply validation,
callback dispatch, agent-parameter serialization, timeout escalation
timers, and the notification subscriber registry.

C `int` values are modelled as `Int` (with explicit 32-bit wrap where the
code relies on it), NULL-able pointers as `Option`, GLib hash tables as
association lists, and callback function pointers as opaque `Nat`
identifiers.
-/

namespace StClient

/-! ### Error constants (errno values on Linux, as negated in the source) -/

def pcmk_ok : Int := 0
def EINVAL : Int := 22
def ENOMSG : Int := 42
def ENODATA : Int := 61
def ETIME : Int := 62
def ECOMM : Int := 70
def ENOTUNIQ : Int := 76
def EOPNOTSUPP : Int := 95
def ECONNABORTED : Int := 103
def ENOTCONN : Int := 107
def ETIMEDOUT : Int := 110
def pcmk_err_generic : Int := 201

def SIGKILL : Int := 9
def SIGTERM : Int := 15

/-! ### Retry policy (`update_remaining_timeout`, st_client.c:737-754)

The fields of `stonith_action_t` that the retry decision reads and
writes.  `initial_start_time` and the current `time(NULL)` are seconds
since the epoch; `diff` is their difference. -/

structure StonithAction where
  timeout : Int
  remaining_timeout : Int
  tries : Int
  max_retries : Int
  rc : Int
  initial_start_time : Int
  deriving Repr, DecidableEq

/-- Embeds `update_remaining_timeout`.  The C comparison
`diff < (action->timeout * 0.7)` multiplies an `int` by the double `0.7`
and compares with the `int` `diff`; for every `int` timeout the double
computation decides exactly the rational comparison `diff < 7*timeout/10`
(the product `timeout * 0.7` rounds to a value strictly between the
neighbouring integers, or to `7*timeout/10` itself when that is an
integer), so it is embedded as `10 * diff < 7 * timeout` over `Int`.
Returns the updated action and the `gboolean` result. -/
def update_remaining_timeout (now : Int) (action : StonithAction) :
    StonithAction × Bool :=
  let diff : Int := now - action.initial_start_time
  let action' :=
    if action.tries ≥ action.max_retries then
      { action with remaining_timeout := 0 }
    else if action.rc ≠ -ETIME ∧ 10 * diff < 7 * action.timeout then
      { action with remaining_timeout := action.timeout - diff }
    else
      { action with remaining_timeout := 0 }
  (action', action'.remaining_timeout ≠ 0)

end StClient

namespace StClient

/-- C1: for a failed action with declared timeout `T`, max retries `N`,
attempt count `k` and last result `r`, after elapsed wall-clock time
`E = now - initial_start_time ≥ 0` the policy retries iff
`k < N ∧ r ≠ -ETIME ∧ E < 0.7·T`, in which case the remaining timeout is
`T - E`; in every other case it refuses and the remaining timeout is 0. -/
theorem update_remaining_timeout_spec (now : Int) (a : StonithAction)
    (hE : 0 ≤ now - a.initial_start_time) :
    ((update_remaining_timeout now a).2 = true ↔
      (a.tries < a.max_retries ∧ a.rc ≠ -ETIME ∧
        10 * (now - a.initial_start_time) < 7 * a.timeout)) ∧
    ((update_remaining_timeout now a).2 = true →
      (update_remaining_timeout now a).1.remaining_timeout =
        a.timeout - (now - a.initial_start_time)) ∧
    ((update_remaining_timeout now a).2 = false →
      (update_remaining_timeout now a).1.remaining_timeout = 0) := by
  unfold update_remaining_timeout
  set diff := now - a.initial_start_time with hdiff
  by_cases h1 : a.tries ≥ a.max_retries
  · simp only [h1, if_pos, decide_eq_true_eq]
    constructor
    · simp only [ne_eq, decide_not]
      constructor
      · intro h; simp at h
      · rintro ⟨hk, -, -⟩; omega
    · constructor
      · intro h; simp at h
      · intro _; trivial
  · by_cases h2 : a.rc ≠ -ETIME ∧ 10 * diff < 7 * a.timeout
    · have hrem : a.timeout - diff ≠ 0 := by omega
      simp only [if_neg h1, if_pos h2]
      refine ⟨⟨fun _ => ⟨by omega, h2.1, h2.2⟩, fun _ => ?_⟩,
        fun _ => by simp, fun hfalse => ?_⟩
      · simp [hrem]
      · simp [hrem] at hfalse
    · simp only [if_neg h1, if_neg h2]
      refine ⟨⟨fun h => ?_, fun hcond => ?_⟩, fun h => ?_, fun _ => by simp⟩
      · simp at h
      · exact absurd ⟨hcond.2.1, hcond.2.2⟩ h2
      · simp at h

/-- Witness for C1: with timeout 10, max retries 2, one attempt, a generic
failure and 3 seconds elapsed, the policy retries with remaining 7. -/
theorem update_remaining_timeout_spec_witness :
    (0 : Int) ≤ 3 - 0 ∧
    ((update_remaining_timeout 3
      ⟨10, 10, 1, 2, -pcmk_err_generic, 0⟩).2 = true ↔
      ((1 : Int) < 2 ∧ -pcmk_err_generic ≠ -ETIME ∧
        10 * ((3 : Int) - 0) < 7 * 10)) :=
  ⟨by decide,
    (update_remaining_timeout_spec 3 ⟨10, 10, 1, 2, -pcmk_err_generic, 0⟩
      (by decide)).1⟩

/-! ### Asynchronous result classification
(`stonith_action_async_done`, st_client.c:757-821)

The mainloop reports `(signo, exitcode)` for the exited child;
`last_timeout_signo` is nonzero iff one of the escalation timers already
fired (`st_child_term` / `st_child_kill`); `error` is the stderr text
drained by `read_output` (`none` when nothing was read, mirroring the
NULL pointer). -/

/-- Whether `needle` occurs as a contiguous run inside the other list. -/
def charsContain (needle : List Char) : List Char → Bool
  | [] => needle.isEmpty
  | c :: cs => needle.isPrefixOf (c :: cs) || charsContain needle cs

/-- C `strstr(hay, needle) != NULL`. -/
def strstr (hay needle : String) : Bool :=
  charsContain needle.toList hay.toList

/-- The result code assigned by `stonith_action_async_done` after both
timers are cancelled and the output drained.  `exitcode` is the child's
exit status (a `Nat`: `WEXITSTATUS` is 0..255). -/
def stonith_action_async_done_rc (last_timeout_signo signo : Int)
    (exitcode : Nat) (error : Option String) : Int :=
  if last_timeout_signo ≠ 0 then
    -ETIME
  else if signo ≠ 0 then
    -ECONNABORTED
  else if exitcode > 0 then
    match error with
    | none => -ENODATA
    | some e =>
      if strstr e "imed out" then -ETIMEDOUT
      else if strstr e "Unrecognised action" then -EOPNOTSUPP
      else -pcmk_err_generic
  else
    (exitcode : Int)

/-- C2: classification priority of an exited asynchronous child: a fired
escalation timer gives the time-out error; else a terminating signal
gives the aborted-connection error; else nonzero exit with no stderr
gives the no-data error; else stderr containing a timeout phrase gives
the timed-out error; else stderr indicating an unrecognised action gives
the not-supported error; else nonzero exit gives the generic failure;
zero exit is success. -/
theorem stonith_action_async_done_rc_spec (lts signo : Int)
    (exitcode : Nat) (error : Option String) :
    (lts ≠ 0 → stonith_action_async_done_rc lts signo exitcode error = -ETIME) ∧
    (lts = 0 → signo ≠ 0 →
      stonith_action_async_done_rc lts signo exitcode error = -ECONNABORTED) ∧
    (lts = 0 → signo = 0 → exitcode > 0 → error = none →
      stonith_action_async_done_rc lts signo exitcode error = -ENODATA) ∧
    (∀ e, lts = 0 → signo = 0 → exitcode > 0 → error = some e →
      strstr e "imed out" = true →
      stonith_action_async_done_rc lts signo exitcode error = -ETIMEDOUT) ∧
    (∀ e, lts = 0 → signo = 0 → exitcode > 0 → error = some e →
      strstr e "imed out" = false → strstr e "Unrecognised action" = true →
      stonith_action_async_done_rc lts signo exitcode error = -EOPNOTSUPP) ∧
    (∀ e, lts = 0 → signo = 0 → exitcode > 0 → error = some e →
      strstr e "imed out" = false → strstr e "Unrecognised action" = false →
      stonith_action_async_done_rc lts signo exitcode error =
        -pcmk_err_generic) ∧
    (lts = 0 → signo = 0 → exitcode = 0 →
      stonith_action_async_done_rc lts signo exitcode error = pcmk_ok) := by
  unfold stonith_action_async_done_rc
  refine ⟨fun h1 => by simp [h1],
    fun h1 h2 => by simp [h1, h2],
    fun h1 h2 h3 h4 => by simp [h1, h2, h3, h4],
    fun e h1 h2 h3 h4 h5 => by simp [h1, h2, h3, h4, h5],
    fun e h1 h2 h3 h4 h5 h6 => by simp [h1, h2, h3, h4, h5, h6],
    fun e h1 h2 h3 h4 h5 h6 => by simp [h1, h2, h3, h4, h5, h6],
    fun h1 h2 h3 => by simp [h1, h2, h3, pcmk_ok]⟩

/-! ### Call-id allocation (`stonith_send_command`, st_client.c:2024-2031,
and `stonith_api_new`, st_client.c:2246-2262)

`stonith->call_id` is a C `int`; `stonith_api_new` initialises it to 1,
and each `stonith_send_command` increments it and resets it to 1 when the
increment left the positive range (`if (stonith->call_id < 1)
stonith->call_id = 1;`).  The increment wraps in 32-bit two's
complement. -/

def INT_MAX : Int := 2 ^ 31 - 1
def INT_MIN : Int := -(2 ^ 31)

/-- 32-bit two's-complement increment of an in-range `int`. -/
def int32_inc (c : Int) : Int :=
  if c = INT_MAX then INT_MIN else c + 1

/-- The call-id allocation step of `stonith_send_command`:
`stonith->call_id++` followed by the reset-to-1 guard.  The result is
both the new stored counter and the id used for the outgoing request. -/
def next_call_id (c : Int) : Int :=
  let c' := int32_inc c
  if c' < 1 then 1 else c'

/-- The `call_id` field as initialised by `stonith_api_new`. -/
def stonith_api_new_call_id : Int := 1

/-- C3: starting from `stonith_api_new`'s counter 1, every allocated call
id stays in `[1, INT_MAX]` (strictly positive, never 0 or negative), each
allocation yields the previous counter plus one, except that at `INT_MAX`
— where the increment would leave the positive-integer range — the id
wraps to 1. -/
theorem next_call_id_spec (c : Int)
    (hc : 1 ≤ c ∧ c ≤ INT_MAX) :
    (1 ≤ next_call_id c ∧ next_call_id c ≤ INT_MAX) ∧
    (c < INT_MAX → next_call_id c = c + 1) ∧
    (c = INT_MAX → next_call_id c = 1) ∧
    (1 ≤ stonith_api_new_call_id ∧ stonith_api_new_call_id ≤ INT_MAX) := by
  obtain ⟨h1, h2⟩ := hc
  unfold next_call_id int32_inc stonith_api_new_call_id INT_MAX INT_MIN at *
  by_cases h : c = 2 ^ 31 - 1
  · subst h
    refine ⟨by norm_num, fun hlt => absurd hlt (by norm_num), fun _ => by norm_num,
      by norm_num⟩
  · simp only [if_neg h]
    refine ⟨⟨?_, ?_⟩, fun _ => ?_, fun heq => absurd heq h, by norm_num⟩
    · have : ¬ (c + 1 < 1) := by omega
      simp [this]; omega
    · have : ¬ (c + 1 < 1) := by omega
      simp [this]; omega
    · have : ¬ (c + 1 < 1) := by omega
      simp [this]

/-- Witness for C3: counter 1 allocates id 2, and the counter INT_MAX
wraps to 1. -/
theorem next_call_id_spec_witness :
    next_call_id 1 = 1 + 1 ∧ next_call_id INT_MAX = 1 :=
  ⟨(next_call_id_spec 1 (by decide)).2.1 (by decide),
    (next_call_id_spec INT_MAX (by decide)).2.2.1 rfl⟩

/-! ### Sending a command (`stonith_send_command`, st_client.c:1994-2101)

The session (`stonith_t`), the transport observations made during one
call (`crm_ipc_send`'s return value, the reply it produced, and
`crm_ipc_connected` at the `done:` label), and the call's outcome. -/

inductive StonithConnState where
  | disconnected
  | connected_command
  | connected_query
  deriving Repr, DecidableEq

structure StonithSession where
  state : StonithConnState
  call_id : Int
  deriving Repr, DecidableEq

/-- A reply document: the `F_STONITH_CALLID` and `F_STONITH_RC` integer
fields (absent fields leave `crm_element_value_int`'s output untouched),
plus an opaque identity for the payload handed to the caller. -/
structure OpReply where
  call_id_field : Option Int
  rc_field : Option Int
  payload : Nat
  deriving Repr, DecidableEq

/-- What the IPC layer does during this call. -/
structure IpcTransport where
  send_rc : Int
  reply : Option OpReply
  connected_after : Bool
  deriving Repr, DecidableEq

structure CallOptions where
  st_opt_sync_call : Bool
  st_opt_discard_reply : Bool
  deriving Repr, DecidableEq

structure SendResult where
  rc : Int
  session : StonithSession
  output_data : Option OpReply
  transmitted : Bool
  deriving Repr, DecidableEq

/-- The `done:` label of `stonith_send_command`: checks
`crm_ipc_connected` and forces the disconnected state when the channel
is gone, then returns. -/
def send_command_done (s1 : StonithSession) (rc : Int)
    (out : Option OpReply) (t : IpcTransport) : SendResult :=
  { rc := rc
    session :=
      if t.connected_after then s1 else { s1 with state := .disconnected }
    output_data := out
    transmitted := true }

/-- Embeds `stonith_send_command`.  `op` is the operation name (`none`
for a NULL pointer), `has_output_slot` whether the caller passed a
non-NULL `output_data` pointer.  `output_data` in the result is what the
caller's slot holds afterwards; a reply that is not delivered there is
freed.  The successful asynchronous path returns the allocated call id
directly, without passing the `done:` label. -/
def stonith_send_command (s : StonithSession) (op : Option String)
    (has_output_slot : Bool) (opts : CallOptions) (t : IpcTransport) :
    SendResult :=
  if s.state = .disconnected then
    { rc := -ENOTCONN, session := s, output_data := none, transmitted := false }
  else if op = none then
    { rc := -EINVAL, session := s, output_data := none, transmitted := false }
  else
    let id := next_call_id s.call_id
    let s1 : StonithSession := { s with call_id := id }
    if t.send_rc < 0 then
      send_command_done s1 (-ECOMM) none t
    else if ¬ opts.st_opt_sync_call then
      { rc := id, session := s1, output_data := none, transmitted := true }
    else
      let reply_id := (t.reply.bind (·.call_id_field)).getD (-1)
      if reply_id = id then
        let rc := match t.reply.bind (·.rc_field) with
          | some v => v
          | none => -ENOMSG
        if opts.st_opt_discard_reply ∨ ¬ has_output_slot then
          send_command_done s1 rc none t
        else
          send_command_done s1 rc t.reply t
      else if reply_id ≤ 0 then
        send_command_done s1 (-ENOMSG) none t
      else
        send_command_done s1 (-ENOMSG) none t

theorem next_call_id_pos (c : Int) (hc : 1 ≤ c) : 1 ≤ next_call_id c := by
  simp only [next_call_id, int32_inc, INT_MAX, INT_MIN]
  split_ifs <;> omega

/-- C4: for a connected synchronous call whose transport exchange yields
a reply: a reply carrying the id just sent has its result code extracted
(`-ENOMSG` when the rc field is missing) and its payload handed to the
caller unless discard was requested or no output slot was passed; a
reply whose id is non-positive or differs from the id just sent yields
the protocol error `-ENOMSG` and is never delivered to the caller. -/
theorem stonith_send_command_sync_reply_spec (s : StonithSession)
    (o : String) (has_output_slot : Bool) (opts : CallOptions)
    (t : IpcTransport)
    (hconn : s.state ≠ .disconnected)
    (hsync : opts.st_opt_sync_call = true)
    (hsend : 0 ≤ t.send_rc)
    (hid : 1 ≤ s.call_id) :
    (∀ r, t.reply = some r →
      r.call_id_field = some (next_call_id s.call_id) →
      ((stonith_send_command s (some o) has_output_slot opts t).rc =
        (match r.rc_field with | some v => v | none => -ENOMSG)) ∧
      (opts.st_opt_discard_reply = false → has_output_slot = true →
        (stonith_send_command s (some o) has_output_slot opts t).output_data
          = some r) ∧
      ((opts.st_opt_discard_reply = true ∨ has_output_slot = false) →
        (stonith_send_command s (some o) has_output_slot opts t).output_data
          = none)) ∧
    (((t.reply.bind (·.call_id_field)).getD (-1) ≤ 0 ∨
      (t.reply.bind (·.call_id_field)).getD (-1) ≠ next_call_id s.call_id) →
      (stonith_send_command s (some o) has_output_slot opts t).rc = -ENOMSG ∧
      (stonith_send_command s (some o) has_output_slot opts t).output_data
        = none) := by
  have hpos : 1 ≤ next_call_id s.call_id := next_call_id_pos s.call_id hid
  unfold stonith_send_command
  simp only [if_neg hconn, reduceCtorEq, if_neg (by simp : ¬(some o = none)),
    if_neg (not_lt.mpr hsend), hsync, not_true_eq_false, if_neg
    (by simp : ¬(False : Prop))]
  constructor
  · intro r hr hcid
    have hbind : t.reply.bind (·.call_id_field) = some (next_call_id s.call_id) := by
      rw [hr]; simpa using hcid
    simp only [hbind, Option.getD_some, if_pos rfl]
    refine ⟨?_, ?_, ?_⟩
    · rw [hr]
      rcases hdis : opts.st_opt_discard_reply with _ | _ <;>
        rcases hslot : has_output_slot with _ | _ <;>
          simp [send_command_done]
    · intro hdis hslot
      rw [hr]
      simp [hdis, hslot, send_command_done]
    · intro hcase
      rw [hr]
      rcases hcase with hdis | hslot
      · simp [hdis, send_command_done]
      · simp [hslot, send_command_done]
  · intro hbad
    have hne : (t.reply.bind (·.call_id_field)).getD (-1) ≠
        next_call_id s.call_id := by
      rcases hbad with hle | hne
      · omega
      · exact hne
    simp only [if_neg hne]
    split_ifs <;> simp [send_command_done]

/-- Witness for C4: a matching reply with rc field 0 yields rc 0 and
delivers the payload; a reply with id 7 when id 2 was sent is rejected
with -ENOMSG and not delivered. -/
theorem stonith_send_command_sync_reply_spec_witness :
    ((stonith_send_command ⟨.connected_command, 1⟩ (some "st_fence") true
      ⟨true, false⟩ ⟨0, some ⟨some 2, some 0, 42⟩, true⟩).output_data =
        some ⟨some 2, some 0, 42⟩) ∧
    ((stonith_send_command ⟨.connected_command, 1⟩ (some "st_fence") true
      ⟨true, false⟩ ⟨0, some ⟨some 7, some 0, 42⟩, true⟩).rc = -ENOMSG) :=
  ⟨(((stonith_send_command_sync_reply_spec ⟨.connected_command, 1⟩
      "st_fence" true ⟨true, false⟩ ⟨0, some ⟨some 2, some 0, 42⟩, true⟩
      (by decide) rfl (by decide) (by decide)).1 ⟨some 2, some 0, 42⟩
      rfl (by decide)).2.1 rfl rfl),
    ((stonith_send_command_sync_reply_spec ⟨.connected_command, 1⟩
      "st_fence" true ⟨true, false⟩ ⟨0, some ⟨some 7, some 0, 42⟩, true⟩
      (by decide) rfl (by decide) (by decide)).2 (by decide)).1⟩

/-- Counterexample for C8: a successful asynchronous send returns the
allocated call id without reaching the `done:` label, so even when the
transport reports the channel no longer connected after the exchange
(`connected_after = false`), the session stays in the connected
state. -/
theorem stonith_send_command_async_skips_disconnect_check :
    (stonith_send_command ⟨.connected_command, 1⟩ (some "st_fence") false
      ⟨false, false⟩ ⟨0, none, false⟩).transmitted = true ∧
    (stonith_send_command ⟨.connected_command, 1⟩ (some "st_fence") false
      ⟨false, false⟩ ⟨0, none, false⟩).session.state =
      .connected_command := by
  constructor <;> rfl

/-- C8 (amended): a disconnected session makes `stonith_send_command`
return the connection error `-ENOTCONN` with the session (including its
call-id counter) untouched and nothing transmitted; a connected session
with an absent operation name returns `-EINVAL` immediately without
transmitting; and whenever the call reaches the `done:` label — a failed
send, or any synchronous exchange — a transport that reports the channel
no longer connected forces the session into the disconnected state
(the successful asynchronous path returns without this check and leaves
the state unchanged). -/
theorem stonith_send_command_guard_spec (s : StonithSession)
    (op : Option String) (has_output_slot : Bool) (opts : CallOptions)
    (t : IpcTransport) :
    (s.state = .disconnected →
      stonith_send_command s op has_output_slot opts t =
        { rc := -ENOTCONN, session := s, output_data := none,
          transmitted := false }) ∧
    (s.state ≠ .disconnected → op = none →
      stonith_send_command s op has_output_slot opts t =
        { rc := -EINVAL, session := s, output_data := none,
          transmitted := false }) ∧
    (s.state ≠ .disconnected → op ≠ none →
      (t.send_rc < 0 ∨ opts.st_opt_sync_call = true) →
      t.connected_after = false →
      (stonith_send_command s op has_output_slot opts t).session.state =
        .disconnected) ∧
    (s.state ≠ .disconnected → op ≠ none → 0 ≤ t.send_rc →
      opts.st_opt_sync_call = false →
      (stonith_send_command s op has_output_slot opts t).session.state =
        s.state) := by
  refine ⟨fun hdis => ?_, fun hconn hop => ?_, fun hconn hop hdone hca => ?_,
    fun hconn hop hsend hasync => ?_⟩
  · simp [stonith_send_command, hdis]
  · simp [stonith_send_command, hconn, hop]
  · rcases hdone with hfail | hsync
    · simp only [stonith_send_command, if_neg hconn, if_neg hop,
        if_pos hfail]
      simp [send_command_done, hca]
    · simp only [stonith_send_command, if_neg hconn, if_neg hop, hsync]
      split_ifs <;> simp_all [send_command_done]
  · simp only [stonith_send_command, if_neg hconn, if_neg hop,
      if_neg (not_lt.mpr hsend), hasync]
    simp

/-- Witness for C8 (amended): a disconnected session fails fast with
-ENOTCONN and no transmission; a synchronous exchange over a channel
that is reported dead afterwards leaves the session disconnected. -/
theorem stonith_send_command_guard_spec_witness :
    (stonith_send_command ⟨.disconnected, 5⟩ (some "st_fence") true
      ⟨true, false⟩ ⟨0, none, true⟩ =
        { rc := -ENOTCONN, session := ⟨.disconnected, 5⟩,
          output_data := none, transmitted := false }) ∧
    ((stonith_send_command ⟨.connected_command, 1⟩ (some "st_fence") true
      ⟨true, false⟩ ⟨0, none, false⟩).session.state = .disconnected) :=
  ⟨(stonith_send_command_guard_spec ⟨.disconnected, 5⟩ (some "st_fence")
      true ⟨true, false⟩ ⟨0, none, true⟩).1 rfl,
    (stonith_send_command_guard_spec ⟨.connected_command, 1⟩
      (some "st_fence") true ⟨true, false⟩ ⟨0, none, false⟩).2.2.1
      (by decide) (by simp) (Or.inr rfl) rfl⟩

/-! ### Callback/timer registry (`stonith_api_add_callback`
st_client.c:1826-1866, `set_callback_timeout` st_client.c:1553-1579,
`stonith_api_del_callback` st_client.c:1452-1471, and
`stonith_perform_callback` st_client.c:1486-1537)

Callback function pointers and user-data pointers are opaque `Nat` ids;
the GLib hash table keyed by call id is an association list whose
`insert` replaces the keyed entry; a `CallbackEntry.timer` of `some p`
is a fallback timer armed with period `p` milliseconds. -/

structure CallbackEntry where
  cb : Nat
  user_data : Nat
  only_success : Bool
  allow_timeout_updates : Bool
  timer : Option Int
  deriving Repr, DecidableEq

structure CallbackRegistry where
  op_callback : Option Nat
  table : List (Int × CallbackEntry)
  deriving Repr, DecidableEq

/-- `g_hash_table_insert`: replaces any entry under the same key. -/
def table_insert (table : List (Int × CallbackEntry)) (k : Int)
    (v : CallbackEntry) : List (Int × CallbackEntry) :=
  (k, v) :: table.filter (fun p => p.1 != k)

/-- Embeds `stonith_api_del_callback`: clear everything, clear only the
default slot (call id 0), or remove one keyed entry. -/
def stonith_api_del_callback (reg : CallbackRegistry) (call_id : Int)
    (all_callbacks : Bool) : CallbackRegistry :=
  if all_callbacks then
    { op_callback := none, table := [] }
  else if call_id = 0 then
    { reg with op_callback := none }
  else
    { reg with table := reg.table.filter (fun p => p.1 != call_id) }

/-- Embeds `set_callback_timeout`: arms the entry's fallback timer at
`(timeout + 60) * 1000` milliseconds, a no-op for `timeout ≤ 0`. -/
def set_callback_timeout (blob : CallbackEntry) (timeout : Int) :
    CallbackEntry :=
  if timeout ≤ 0 then blob
  else { blob with timer := some ((timeout + 60) * 1000) }

/-- Embeds `stonith_perform_callback` for a delivered reply with final
`call_id` and `rc` (the message fields have already been extracted).
Returns the updated registry and the invocations performed, in order:
a specific entry is invoked with its own user data, the global default
callback with a NULL (`none`) user data. -/
def stonith_perform_callback (reg : CallbackRegistry) (call_id : Int)
    (rc : Int) : CallbackRegistry × List (Nat × Option Nat) :=
  let found := reg.table.lookup call_id
  let reg1 := match found with
    | some _ => stonith_api_del_callback reg call_id false
    | none => reg
  let specific : List (Nat × Option Nat) :=
    match found with
    | some blob =>
      if rc = pcmk_ok ∨ blob.only_success = false then
        [(blob.cb, some blob.user_data)]
      else []
    | none => []
  let global : List (Nat × Option Nat) :=
    match reg1.op_callback with
    | some g => [(g, none)]
    | none => []
  (reg1, specific ++ global)

/-- Counterexample for C5: with a default callback 99 installed and a
specific entry (callback 7) registered under call id 5, delivering a
reply for call 5 invokes BOTH the specific callback and the default
callback — the default is not restricted to lookup misses. -/
theorem stonith_perform_callback_global_also_fires :
    (stonith_perform_callback
      ⟨some 99, [(5, ⟨7, 3, false, false, none⟩)]⟩ 5 0).2 =
      [(7, some 3), (99, none)] := by rfl

/-- C5 (amended): a specific callback entry registered under the reply's
call id is removed and invoked subject to its success-only flag, and the
session-wide default callback, when installed, is invoked for every
delivered reply — alone on a lookup miss, but also in addition to a
matched specific callback (for a nonzero call id the default slot itself
is left installed). -/
theorem stonith_perform_callback_spec (reg : CallbackRegistry)
    (call_id rc : Int) :
    (∀ entry, reg.table.lookup call_id = some entry → call_id ≠ 0 →
      (stonith_perform_callback reg call_id rc).1.table =
        reg.table.filter (fun p => p.1 != call_id) ∧
      (stonith_perform_callback reg call_id rc).1.op_callback =
        reg.op_callback ∧
      (stonith_perform_callback reg call_id rc).2 =
        (if rc = pcmk_ok ∨ entry.only_success = false
          then [(entry.cb, some entry.user_data)] else []) ++
        (match reg.op_callback with
          | some g => [(g, none)]
          | none => [])) ∧
    (reg.table.lookup call_id = none →
      (stonith_perform_callback reg call_id rc).1 = reg ∧
      (stonith_perform_callback reg call_id rc).2 =
        (match reg.op_callback with
          | some g => [(g, none)]
          | none => [])) := by
  constructor
  · intro entry hfound hnz
    simp only [stonith_perform_callback, hfound, stonith_api_del_callback,
      if_neg hnz]
    exact ⟨rfl, rfl, rfl⟩
  · intro hmiss
    simp only [stonith_perform_callback, hmiss]
    refine ⟨?_, ?_⟩ <;> first | rfl | trivial

/-- Witness for C5 (amended): a matched entry under call id 5 is removed
and invoked, and the installed default callback fires as well. -/
theorem stonith_perform_callback_spec_witness :
    (stonith_perform_callback
      ⟨some 99, [(5, ⟨7, 3, false, false, none⟩)]⟩ 5 0).1.table = [] ∧
    (stonith_perform_callback
      ⟨some 99, [(5, ⟨7, 3, false, false, none⟩)]⟩ 5 0).2 =
      [(7, some 3)] ++ [(99, none)] := by
  have h := (stonith_perform_callback_spec
    ⟨some 99, [(5, ⟨7, 3, false, false, none⟩)]⟩ 5 0).1
    ⟨7, 3, false, false, none⟩ rfl (by decide)
  exact ⟨by rw [h.1]; rfl, by rw [h.2.2]; rfl⟩

/-- Embeds `stonith_api_add_callback` (with the option bits already
decoded into the two booleans).  The result carries the C return value,
the updated registry, and any immediate synchronous invocation performed
for an already-failed (negative) call id. -/
def stonith_api_add_callback (reg : CallbackRegistry) (call_id : Int)
    (timeout : Int) (only_success allow_timeout_updates : Bool)
    (user_data : Nat) (cb : Nat) :
    Int × CallbackRegistry × List (Nat × Option Nat) :=
  if call_id = 0 then
    let reg1 := { reg with op_callback := some cb }
    let blob0 : CallbackEntry :=
      ⟨cb, user_data, only_success, allow_timeout_updates, none⟩
    let blob := if 0 < timeout then set_callback_timeout blob0 timeout
      else blob0
    (1, { reg1 with table := table_insert reg1.table call_id blob }, [])
  else if call_id < 0 then
    if only_success = false then
      (0, reg, [(cb, some user_data)])
    else
      (0, reg, [])
  else
    let blob0 : CallbackEntry :=
      ⟨cb, user_data, only_success, allow_timeout_updates, none⟩
    let blob := if 0 < timeout then set_callback_timeout blob0 timeout
      else blob0
    (1, { reg with table := table_insert reg.table call_id blob }, [])

/-- C10: registering with call id 0 installs the session-wide default
callback AND inserts a `CallbackEntry` into the keyed registry under key 0
(with a fallback timer armed at `(timeout + 60)` seconds when
`timeout > 0`), returning TRUE; only a negative call id returns (FALSE)
without persisting any registry state. -/
theorem stonith_api_add_callback_spec (reg : CallbackRegistry)
    (call_id timeout : Int) (os atu : Bool) (ud cb : Nat) :
    (call_id = 0 →
      (stonith_api_add_callback reg call_id timeout os atu ud cb).2.1.op_callback
        = some cb ∧
      ∃ blob,
        (stonith_api_add_callback reg call_id timeout os atu ud
          cb).2.1.table.lookup 0 = some blob ∧
        blob.cb = cb ∧
        (0 < timeout → blob.timer = some ((timeout + 60) * 1000)) ∧
        (timeout ≤ 0 → blob.timer = none) ∧
      (stonith_api_add_callback reg call_id timeout os atu ud cb).1 = 1) ∧
    (call_id < 0 →
      (stonith_api_add_callback reg call_id timeout os atu ud cb).2.1 = reg ∧
      (stonith_api_add_callback reg call_id timeout os atu ud cb).1 = 0) := by
  constructor
  · intro h0
    subst h0
    simp only [stonith_api_add_callback, if_pos rfl]
    by_cases ht : 0 < timeout
    · refine ⟨rfl, ⟨set_callback_timeout
        ⟨cb, ud, os, atu, none⟩ timeout, ?_, ?_, ?_, ?_, ?_⟩⟩
      · simp [ht, table_insert]
      · simp [set_callback_timeout, not_le.mpr ht]
      · intro _; simp [set_callback_timeout, not_le.mpr ht]
      · intro hle; omega
      · simp [ht]
    · refine ⟨rfl, ⟨⟨cb, ud, os, atu, none⟩, ?_, rfl, ?_, fun _ => rfl, ?_⟩⟩
      · simp [ht, table_insert]
      · intro hlt; exact absurd hlt ht
      · simp [ht]
  · intro hneg
    have h0 : ¬(call_id = 0) := by omega
    simp only [stonith_api_add_callback, if_neg h0, if_pos hneg]
    rcases os with _ | _ <;> simp

/-- Witness for C10: registering call id 0 with timeout 10 installs
default callback 8 and an entry under key 0 with a 70-second timer;
registering call id -62 persists nothing. -/
theorem stonith_api_add_callback_spec_witness :
    ((stonith_api_add_callback ⟨none, []⟩ 0 10 false false 4 8).2.1.op_callback
      = some 8) ∧
    ((stonith_api_add_callback ⟨none, []⟩ (-62) 10 false false 4 8).2.1 =
      (⟨none, []⟩ : CallbackRegistry)) := by
  have h1 := (stonith_api_add_callback_spec ⟨none, []⟩ 0 10 false false 4 8).1
    rfl
  have h2 := (stonith_api_add_callback_spec ⟨none, []⟩ (-62) 10 false false
    4 8).2 (by decide)
  exact ⟨h1.1, h2.1⟩

/-! ### Agent parameter serialization (`append_arg` st_client.c:437-463,
`append_config_arg` st_client.c:465-476, `make_args` st_client.c:478-547)

GLib hash tables of parameters become association lists; the serialized
argument blob (`char **args`, starting NULL) becomes a `String` starting
empty. -/

/-- `CRM_META`, from the library's public header `crm/crm.h`: the prefix
marking cluster metadata attributes. -/
def CRM_META : String := "CRM_meta"

/-- `STONITH_ATTR_ACTION_OP`, from `crm/stonith-ng.h`. -/
def STONITH_ATTR_ACTION_OP : String := "action"

/-- `STONITH_ATTR_HOSTARG`, from `crm/stonith-ng.h`: the agent-declared
"host argument" override. -/
def STONITH_ATTR_HOSTARG : String := "pcmk_host_argument"

/-- The reserved filter of `append_arg`: implementation-private `pcmk_`
options, cluster metadata attributes, and the key `crm_feature_set`. -/
def append_arg_filtered (key : String) : Bool :=
  strstr key "pcmk_" || strstr key CRM_META || key == "crm_feature_set"

/-- Embeds `append_arg`: drops any key containing `pcmk_` or `CRM_META`
or equal to `crm_feature_set`, otherwise appends the newline-terminated
`key=value` line. -/
def append_arg (key value : String) (args : String) : String :=
  if strstr key "pcmk_" then args
  else if strstr key CRM_META then args
  else if key == "crm_feature_set" then args
  else args ++ key ++ "=" ++ value ++ "\n"

/-- Embeds `append_config_arg`: skips the `action` parameter, delegates
the rest to `append_arg`. -/
def append_config_arg (key value : String) (args : String) : String :=
  if key ≠ STONITH_ATTR_ACTION_OP then append_arg key value args
  else args

/-- Embeds `make_args`.  `device_args` and `port_map` are the two
optional hash tables; `victim_nodeid` is the `uint32_t` node id. -/
def make_args (agent action : String) (victim : Option String)
    (victim_nodeid : Nat)
    (device_args port_map : Option (List (String × String))) : String :=
  let action1 :=
    match device_args.bind
      (fun da => da.lookup ("pcmk_" ++ action ++ "_action")) with
    | some v => v
    | none => action
  let args := append_arg STONITH_ATTR_ACTION_OP action1 ""
  let args :=
    match victim, device_args with
    | some v, some da =>
      let alias0 :=
        match port_map.bind (fun pm => pm.lookup v) with
        | some a => a
        | none => v
      let param0 := da.lookup STONITH_ATTR_HOSTARG
      let args := append_arg "nodename" v args
      let args :=
        if victim_nodeid ≠ 0 then
          append_arg "nodeid" (toString victim_nodeid) args
        else args
      let param : Option String :=
        if agent == "fence_legacy" then param0
        else if param0 = none then some "port"
        else param0
      let value : Option String :=
        if agent == "fence_legacy" then some agent
        else if param0 = none then da.lookup "port"
        else if param0 = some "none" then some "none"
        else param0.bind (fun p => da.lookup p)
      if value = none ∨ value = some "dynamic" then
        match param with
        | some p => append_arg p alias0 args
        | none => args
      else args
    | _, _ => args
  match device_args with
  | some da => da.foldl (fun a kv => append_config_arg kv.1 kv.2 a) args
  | none => args

/-- The blob obtained by serializing a list of kept key/value pairs as
newline-terminated `key=value` lines. -/
def serialize_args (pairs : List (String × String)) : String :=
  pairs.foldl (fun s kv => s ++ kv.1 ++ "=" ++ kv.2 ++ "\n") ""

/-- A blob is well-formed when it is the serialization of pairs none of
whose keys match the reserved filter. -/
def SerializedBlob (s : String) : Prop :=
  ∃ pairs : List (String × String),
    (∀ kv ∈ pairs, append_arg_filtered kv.1 = false) ∧
    s = serialize_args pairs

theorem serialized_blob_empty : SerializedBlob "" :=
  ⟨[], by simp, rfl⟩

theorem serialized_blob_append_arg (k v args : String)
    (h : SerializedBlob args) : SerializedBlob (append_arg k v args) := by
  obtain ⟨pairs, hall, rfl⟩ := h
  unfold append_arg
  split_ifs with h1 h2 h3
  · exact ⟨pairs, hall, rfl⟩
  · exact ⟨pairs, hall, rfl⟩
  · exact ⟨pairs, hall, rfl⟩
  · refine ⟨pairs ++ [(k, v)], ?_, ?_⟩
    · intro kv hkv
      rcases List.mem_append.mp hkv with hin | hin
      · exact hall kv hin
      · have : kv = (k, v) := by simpa using hin
        subst this
        simp [append_arg_filtered, h1, h2, h3]
    · simp [serialize_args, List.foldl_append]

theorem serialized_blob_append_config_arg (k v args : String)
    (h : SerializedBlob args) :
    SerializedBlob (append_config_arg k v args) := by
  unfold append_config_arg
  split_ifs
  · exact serialized_blob_append_arg k v args h
  · exact h

theorem serialized_blob_config_fold (da : List (String × String))
    (args : String) (h : SerializedBlob args) :
    SerializedBlob
      (da.foldl (fun a kv => append_config_arg kv.1 kv.2 a) args) := by
  induction da generalizing args with
  | nil => exact h
  | cons kv tl ih =>
    exact ih _ (serialized_blob_append_config_arg kv.1 kv.2 args h)

theorem make_args_serialized (agent action : String)
    (victim : Option String) (victim_nodeid : Nat)
    (device_args port_map : Option (List (String × String))) :
    SerializedBlob
      (make_args agent action victim victim_nodeid device_args port_map) := by
  unfold make_args
  rcases device_args with _ | da
  · rcases victim with _ | v
    · exact serialized_blob_append_arg _ _ _ serialized_blob_empty
    · exact serialized_blob_append_arg _ _ _ serialized_blob_empty
  · apply serialized_blob_config_fold
    rcases victim with _ | v
    · exact serialized_blob_append_arg _ _ _ serialized_blob_empty
    · simp only
      split_ifs <;>
        cases List.lookup STONITH_ATTR_HOSTARG da <;>
          (repeat
            first
              | exact serialized_blob_empty
              | apply serialized_blob_append_arg)

/-- C6: every serialized parameter blob is a concatenation of
newline-terminated `key=value` lines whose keys never match the reserved
filter (`pcmk_` options, `CRM_meta` attributes, `crm_feature_set`), and
no filtered key ever appears among the keys of the agent-visible blob. -/
theorem make_args_spec (agent action : String) (victim : Option String)
    (victim_nodeid : Nat)
    (device_args port_map : Option (List (String × String))) :
    ∃ pairs : List (String × String),
      (∀ kv ∈ pairs, append_arg_filtered kv.1 = false) ∧
      make_args agent action victim victim_nodeid device_args port_map =
        serialize_args pairs ∧
      ∀ k, append_arg_filtered k = true → k ∉ pairs.map Prod.fst := by
  obtain ⟨pairs, hall, heq⟩ :=
    make_args_serialized agent action victim victim_nodeid device_args
      port_map
  refine ⟨pairs, hall, heq, fun k hk hmem => ?_⟩
  obtain ⟨kv, hkv, rfl⟩ := List.mem_map.mp hmem
  have := hall kv hkv
  rw [hk] at this
  exact Bool.noConfusion this

/-! ### Timeout escalation for asynchronous execution
(`internal_stonith_action_execute` async arm st_client.c:947-967,
`st_child_term` st_client.c:549-563, `st_child_kill` st_client.c:565-579,
timer cancellation in `stonith_action_async_done` st_client.c:761-768)

One-shot GLib timers are modelled by their armed period in milliseconds
(`none` = not armed); `signals_sent` records the `kill(-pid, sig)` calls
made, in order, as (signal, target) pairs. -/

structure AsyncExecState where
  pid : Int
  timer_sigterm : Option Int
  timer_sigkill : Option Int
  last_timeout_signo : Int
  signals_sent : List (Int × Int)
  deriving Repr, DecidableEq

/-- The asynchronous arm of `internal_stonith_action_execute`: clears
`last_timeout_signo` and, when a remaining timeout is set, arms the
SIGTERM timer at `remaining_timeout` seconds and the SIGKILL timer at
`remaining_timeout + 5` seconds (`g_timeout_add` takes milliseconds). -/
def async_setup_timers (pid remaining_timeout : Int) : AsyncExecState :=
  { pid := pid
    timer_sigterm :=
      if remaining_timeout ≠ 0 then some (1000 * remaining_timeout)
      else none
    timer_sigkill :=
      if remaining_timeout ≠ 0 then some (1000 * (remaining_timeout + 5))
      else none
    last_timeout_signo := 0
    signals_sent := [] }

/-- Embeds `st_child_term`: fires once, records SIGTERM as the last
timeout signal and signals the child's process group. -/
def st_child_term (track : AsyncExecState) : AsyncExecState :=
  { track with
    timer_sigterm := none
    last_timeout_signo := SIGTERM
    signals_sent := track.signals_sent ++ [(SIGTERM, -track.pid)] }

/-- Embeds `st_child_kill`: fires once, records SIGKILL as the last
timeout signal and signals the child's process group. -/
def st_child_kill (track : AsyncExecState) : AsyncExecState :=
  { track with
    timer_sigkill := none
    last_timeout_signo := SIGKILL
    signals_sent := track.signals_sent ++ [(SIGKILL, -track.pid)] }

/-- The timer cancellation performed first by `stonith_action_async_done`
when the child exits: both one-shot timers are removed and no signal is
sent. -/
def async_done_cancel_timers (track : AsyncExecState) : AsyncExecState :=
  { track with timer_sigterm := none, timer_sigkill := none }

/-- C7: for remaining timeout `R > 0`, the async execution arms the
SIGTERM timer at `R` seconds and the SIGKILL timer at `R + 5` seconds —
exactly 5 seconds (5000 ms) later; the SIGTERM timer firing sends SIGTERM
to the child's process group and the SIGKILL timer then sends SIGKILL to
the process group; if instead the child exits first, both timers are
cancelled and no signal has been sent. -/
theorem async_escalation_spec (pid R : Int) (hR : 0 < R) :
    (async_setup_timers pid R).timer_sigterm = some (1000 * R) ∧
    (async_setup_timers pid R).timer_sigkill = some (1000 * (R + 5)) ∧
    1000 * (R + 5) - 1000 * R = 5000 ∧
    (st_child_term (async_setup_timers pid R)).signals_sent =
      [(SIGTERM, -pid)] ∧
    (st_child_kill (st_child_term (async_setup_timers pid R))).signals_sent
      = [(SIGTERM, -pid), (SIGKILL, -pid)] ∧
    (async_done_cancel_timers (async_setup_timers pid R)).timer_sigterm
      = none ∧
    (async_done_cancel_timers (async_setup_timers pid R)).timer_sigkill
      = none ∧
    (async_done_cancel_timers (async_setup_timers pid R)).signals_sent
      = [] := by
  have hne : R ≠ 0 := by omega
  refine ⟨?_, ?_, by ring, ?_, ?_, ?_, ?_, ?_⟩ <;>
    simp [async_setup_timers, st_child_term, st_child_kill,
      async_done_cancel_timers, hne]

/-- Witness for C7: with a 10-second remaining timeout the timers are
armed at 10000 ms and 15000 ms. -/
theorem async_escalation_spec_witness :
    (async_setup_timers 1234 10).timer_sigterm = some (1000 * 10) ∧
    (async_setup_timers 1234 10).timer_sigkill = some (1000 * (10 + 5)) :=
  ⟨(async_escalation_spec 1234 10 (by decide)).1,
    (async_escalation_spec 1234 10 (by decide)).2.1⟩

/-! ### Notification subscriber registry
(`stonithlib_GCompareFunc` st_client.c:1361-1387,
`stonith_api_add_notification` st_client.c:1761-1791)

Subscriber callback function pointers are opaque `Nat` ids wrapped in
`Option` to mirror NULL. -/

structure NotifyClient where
  event : String
  notify : Option Nat
  deriving Repr, DecidableEq

/-- C `strcmp` collapsed to its sign. -/
def strcmp (a b : String) : Int :=
  if a = b then 0 else if a < b then -1 else 1

/-- The C pointer comparison `((long)a->notify) < ((long)b->notify)` on
the two (non-NULL) callback pointers. -/
def notify_ptr_lt : Option Nat → Option Nat → Bool
  | some x, some y => x < y
  | _, _ => false

/-- Embeds `stonithlib_GCompareFunc`: equal when the event names compare
equal and either callback pointer is NULL or they are the same pointer;
otherwise ordered by event name, then by pointer value. -/
def stonithlib_GCompareFunc (a b : NotifyClient) : Int :=
  let rc := strcmp a.event b.event
  if rc = 0 then
    if a.notify = none ∨ b.notify = none then 0
    else if a.notify = b.notify then 0
    else if notify_ptr_lt a.notify b.notify then -1
    else 1
  else rc

/-- Embeds `stonith_api_add_notification`: a match in the subscriber
list yields `-ENOTUNIQ` and leaves the list unchanged; otherwise the new
subscriber is appended and an activate-notification control message is
sent to the daemon (the returned `Bool`). -/
def stonith_api_add_notification (notify_list : List NotifyClient)
    (event : String) (callback : Option Nat) :
    Int × List NotifyClient × Bool :=
  match notify_list.find?
    (fun c => stonithlib_GCompareFunc c ⟨event, callback⟩ == 0) with
  | some _ => (-ENOTUNIQ, notify_list, false)
  | none => (pcmk_ok, notify_list ++ [⟨event, callback⟩], true)

theorem gcompare_eq_zero_iff (c : NotifyClient) (event : String) (x : Nat)
    (hc : c.notify ≠ none) :
    stonithlib_GCompareFunc c ⟨event, some x⟩ = 0 ↔
      c = (⟨event, some x⟩ : NotifyClient) := by
  obtain ⟨ce, cn⟩ := c
  rcases cn with _ | y
  · simp at hc
  · simp only [stonithlib_GCompareFunc, strcmp, notify_ptr_lt,
      NotifyClient.mk.injEq]
    by_cases he : ce = event <;> by_cases hxy : y = x <;>
      simp [he, hxy] <;> split_ifs <;> simp_all

/-- C9: subscribing an (event, callback) pair — callbacks being real
(non-NULL) function pointers — when an equal pair is already in the
subscriber list returns the duplicate-registration error `-ENOTUNIQ` and
leaves the list (and its length) unchanged; subscribing a pair not yet
present returns `pcmk_ok`, appends it, and sends the
activate-notification control message. -/
theorem stonith_api_add_notification_spec (notify_list : List NotifyClient)
    (event : String) (x : Nat)
    (hwf : ∀ c ∈ notify_list, c.notify ≠ none) :
    ((⟨event, some x⟩ : NotifyClient) ∈ notify_list →
      (stonith_api_add_notification notify_list event (some x)).1 =
        -ENOTUNIQ ∧
      (stonith_api_add_notification notify_list event (some x)).2.1 =
        notify_list ∧
      (stonith_api_add_notification notify_list event (some x)).2.1.length
        = notify_list.length) ∧
    ((⟨event, some x⟩ : NotifyClient) ∉ notify_list →
      (stonith_api_add_notification notify_list event (some x)).1 =
        pcmk_ok ∧
      (stonith_api_add_notification notify_list event (some x)).2.1 =
        notify_list ++ [⟨event, some x⟩] ∧
      (stonith_api_add_notification notify_list event (some x)).2.2 =
        true) := by
  constructor
  · intro hmem
    cases hfind : notify_list.find?
        (fun c => stonithlib_GCompareFunc c ⟨event, some x⟩ == 0) with
    | none =>
      exfalso
      have := List.find?_eq_none.mp hfind _ hmem
      have hself : stonithlib_GCompareFunc
          (⟨event, some x⟩ : NotifyClient) ⟨event, some x⟩ = 0 :=
        (gcompare_eq_zero_iff ⟨event, some x⟩ event x (by simp)).mpr rfl
      simp [hself] at this
    | some c =>
      simp only [stonith_api_add_notification, hfind]
      refine ⟨?_, ?_, ?_⟩ <;> first | rfl | trivial
  · intro hmem
    cases hfind : notify_list.find?
        (fun c => stonithlib_GCompareFunc c ⟨event, some x⟩ == 0) with
    | none =>
      simp only [stonith_api_add_notification, hfind]
      refine ⟨?_, ?_, ?_⟩ <;> first | rfl | trivial
    | some c =>
      exfalso
      have hmemc := List.mem_of_find?_eq_some hfind
      have hpred := List.find?_some hfind
      have hc := (gcompare_eq_zero_iff c event x (hwf c hmemc)).mp
        (by simpa using hpred)
      exact hmem (hc ▸ hmemc)

/-- Witness for C9: registering ("fence", callback 1) twice: the second
registration fails with -ENOTUNIQ and the subscriber count stays 1. -/
theorem stonith_api_add_notification_spec_witness :
    ((stonith_api_add_notification [⟨"fence", some 1⟩] "fence" (some 1)).1
      = -ENOTUNIQ) ∧
    ((stonith_api_add_notification [⟨"fence", some 1⟩] "fence"
      (some 1)).2.1.length = 1) ∧
    ((stonith_api_add_notification [] "fence" (some 1)).2.1 =
      [⟨"fence", some 1⟩]) := by
  have h1 := (stonith_api_add_notification_spec [⟨"fence", some 1⟩]
    "fence" 1 (by intro c hc; simp at hc; subst hc; simp)).1
    (by simp)
  have h2 := (stonith_api_add_notification_spec [] "fence" 1
    (by intro c hc; simp at hc)).2 (by simp)
  exact ⟨h1.1, by rw [h1.2.2]; rfl, by rw [h2.2.1]; rfl⟩

/-- Witness for C2: an agent exiting 4 with stderr "Connection timed out"
after no signal and no escalation is classified as -ETIMEDOUT, and a
SIGTERM escalation gives -ETIME. -/
theorem stonith_action_async_done_rc_spec_witness :
    stonith_action_async_done_rc 0 0 4 (some "Connection timed out") =
      -ETIMEDOUT ∧
    stonith_action_async_done_rc SIGTERM 9 0 none = -ETIME :=
  ⟨(stonith_action_async_done_rc_spec 0 0 4
      (some "Connection timed out")).2.2.2.1 "Connection timed out"
      rfl rfl (by decide) rfl (by decide),
    (stonith_action_async_done_rc_spec SIGTERM 9 0 none).1 (by decide)⟩

end StClient
